import Mathlib

/-!
Verification development for the CreditVision AI loan-estimation core
(creditvision_ai_app.py).  The five pure numeric functions of the source are
embedded over the rationals: Python floats become `ℚ`, Python `round(x, 2)`
and `round(x, -3)` become explicit round-half-to-even operations, `int(x)`
becomes truncation toward zero, the uniformly random draws of the offer
generator become explicit bounded parameters, and the two
`try/except OverflowError` blocks of the amortization engine become explicit
Boolean outcome parameters.
-/

/-- Round-half-to-even of a rational to the nearest integer, the rounding mode
of Python's builtin `round`. -/
def rndHalfEven (x : ℚ) : ℤ :=
  if x - (⌊x⌋ : ℚ) < 1/2 then ⌊x⌋
  else if 1/2 < x - (⌊x⌋ : ℚ) then ⌊x⌋ + 1
  else if ⌊x⌋ % 2 = 0 then ⌊x⌋ else ⌊x⌋ + 1

/-- Python `round(x, 2)`: round to 2 decimal places, ties to even. -/
def round2 (x : ℚ) : ℚ := (rndHalfEven (x * 100) : ℚ) / 100

/-- Python `round(x, -3)`: round to the nearest thousand, ties to even. -/
def roundThousand (x : ℚ) : ℚ := (rndHalfEven (x / 1000) : ℚ) * 1000

/-- Python `int(x)` on a float: truncation toward zero. -/
def int_trunc (x : ℚ) : ℤ := if 0 ≤ x then ⌊x⌋ else ⌈x⌉

/-- Embedding of `simulate_alt_data_features`: maps a job type to the five
named feature scores.  The Python dict (fixed keys, insertion order) is
embedded as an association list; the `dict.update` calls are resolved to the
final value of each key. -/
def simulate_alt_data_features (job_type : String) : List (String × ℚ) :=
  if job_type = "Gig Worker (e.g., Delivery, Driver)" then
    [("income_stability_proxy", 6/10),
     ("digital_transaction_volume", 7/10),
     ("social_reputation_proxy", 65/100),
     ("asset_ownership_proxy", 5/10),
     ("skill_versatility_proxy", 7/10)]
  else if job_type = "Farmer / Agricultural Worker" then
    [("income_stability_proxy", 4/10),
     ("digital_transaction_volume", 3/10),
     ("social_reputation_proxy", 6/10),
     ("asset_ownership_proxy", 7/10),
     ("skill_versatility_proxy", 5/10)]
  else if job_type = "Small Shop Owner / Local Business" then
    [("income_stability_proxy", 65/100),
     ("digital_transaction_volume", 75/100),
     ("social_reputation_proxy", 7/10),
     ("asset_ownership_proxy", 6/10),
     ("skill_versatility_proxy", 5/10)]
  else if job_type = "Salaried (Formal Employment)" then
    [("income_stability_proxy", 9/10),
     ("digital_transaction_volume", 8/10),
     ("social_reputation_proxy", 5/10),
     ("asset_ownership_proxy", 6/10),
     ("skill_versatility_proxy", 7/10)]
  else if job_type = "Freelancer / Consultant (Irregular Income)" then
    [("income_stability_proxy", 55/100),
     ("digital_transaction_volume", 85/100),
     ("social_reputation_proxy", 75/100),
     ("asset_ownership_proxy", 5/10),
     ("skill_versatility_proxy", 8/10)]
  else -- "Other" and any unrecognized category use the default values
    [("income_stability_proxy", 5/10),
     ("digital_transaction_volume", 5/10),
     ("social_reputation_proxy", 5/10),
     ("asset_ownership_proxy", 5/10),
     ("skill_versatility_proxy", 5/10)]

/-- Embedding of `generate_civil_score`: average the feature values (0.5 for
an empty feature set), rescale from [0,1] to [300,900] (`CIVIL_SCORE_MIN` =
300, `CIVIL_SCORE_MAX` = 900), truncate with `int`, then clamp. -/
def generate_civil_score (alt_data_features : List (String × ℚ)) : ℤ :=
  let avg_feature_score : ℚ :=
    if alt_data_features = [] then 1/2
    else (alt_data_features.map Prod.snd).sum / (alt_data_features.length : ℚ)
  let civil_score := int_trunc (300 + avg_feature_score * (900 - 300))
  max 300 (min civil_score 900)

/-- Embedding of `calculate_loan_interest_rate`: base rate
`ANNUAL_INTEREST_RATE_DEFAULT` = 0.09 adjusted by 0.25% per 100 score points
of distance from the midpoint of the score range, clamped to [0.07, 0.15]. -/
def calculate_loan_interest_rate (civil_score : ℤ) : ℚ :=
  let score_diff_from_mid : ℚ := ((civil_score : ℚ) - (300 + (900 - 300)/2)) / 100
  let rate_adjustment := -(score_diff_from_mid * (25/10000))
  let estimated_annual_rate := 9/100 + rate_adjustment
  max (7/100) (min estimated_annual_rate (15/100))

/-- The present-value-of-an-ordinary-annuity expression of line 130 of the
source: `EMI * (1 - (1 + r)^-n) / r`. -/
def annuityPV (emi monthly_rate : ℚ) (number_of_payments : ℕ) : ℚ :=
  emi * (1 - ((1 + monthly_rate) ^ number_of_payments)⁻¹) / monthly_rate

/-- Embedding of the installment recomputation block (lines 142-153 of the
source): zero-rate formula when the monthly rate is zero, the amortizing
formula `P * r * (1+r)^n / ((1+r)^n - 1)` otherwise, with the zero-denominator
fallback; `ovEMI` models the outcome of the `try/except OverflowError` around
the nonzero-rate formula, whose handler falls back to `monthly_income`. -/
def recompute_actual_emi (max_loan_amount monthly_interest_rate : ℚ)
    (number_of_payments : ℕ) (monthly_income : ℚ) (ovEMI : Bool) : ℚ :=
  if monthly_interest_rate = 0 then
    if 0 < number_of_payments then max_loan_amount / (number_of_payments : ℚ) else 0
  else if ovEMI then monthly_income
  else if (1 + monthly_interest_rate) ^ number_of_payments - 1 = 0 then
    if 0 < number_of_payments then max_loan_amount / (number_of_payments : ℚ) else 0
  else
    max_loan_amount * monthly_interest_rate *
      ((1 + monthly_interest_rate) ^ number_of_payments) /
      ((1 + monthly_interest_rate) ^ number_of_payments - 1)

/-- Embedding of `calculate_max_loan_and_emi`.  The EMI-to-income cap is
0.45 (`MAX_EMI_TO_INCOME` constant of the source).  `ovPV` and `ovEMI` model
the outcomes of the two `try/except OverflowError` blocks: `ovPV = true`
means the present-value computation overflowed (handler sets the loan amount
to 0), `ovEMI = true` means the installment recomputation overflowed (handler
sets the installment to `monthly_income`).  Over `ℚ` neither computation can
actually overflow, so the flags are free parameters of the embedding. -/
def calculate_max_loan_and_emiOv (monthly_income annual_interest_rate : ℚ)
    (loan_tenure_years : ℕ) (ovPV ovEMI : Bool) : ℚ × ℚ :=
  let max_permissible_emi := monthly_income * (45/100)
  let monthly_interest_rate := annual_interest_rate / 12
  let number_of_payments := loan_tenure_years * 12
  let max_loan_amount :=
    if monthly_interest_rate = 0 then max_permissible_emi * (number_of_payments : ℚ)
    else if ovPV then 0
    else annuityPV max_permissible_emi monthly_interest_rate number_of_payments
  if max_loan_amount ≤ 0 then (0, 0)
  else
    (round2 max_loan_amount,
     round2 (recompute_actual_emi max_loan_amount monthly_interest_rate
       number_of_payments monthly_income ovEMI))

/-- `calculate_max_loan_and_emi` on the non-overflowing path, which is the
behaviour on every input whose powers stay in floating-point range. -/
def calculate_max_loan_and_emi (monthly_income annual_interest_rate : ℚ)
    (loan_tenure_years : ℕ) : ℚ × ℚ :=
  calculate_max_loan_and_emiOv monthly_income annual_interest_rate
    loan_tenure_years false false

/-- A mock lender offer record, as built by `get_mock_bank_loan_options`. -/
structure LenderOffer where
  bank_name : String
  loan_product_name : String
  offered_loan_amount : ℚ
  interest_rate_pa : ℚ
  tenure_years : ℕ
  estimated_emi : ℚ
  notes : String
  deriving DecidableEq

/-- Bank 1 ("Inclusive Housing Finance") offer rate (line 166 of the source):
`min(0.16, max(0.075, base + 0.005 - (score - 600)/100 * 0.001))`. -/
def bank1Rate (civil_score : ℤ) (base_annual_interest_rate : ℚ) : ℚ :=
  min (16/100) (max (75/1000)
    (base_annual_interest_rate + 5/1000 - ((civil_score : ℚ) - 600)/100 * (1/1000)))

/-- Bank 2 ("Progressive National Bank") offer rate (line 195 of the source):
`min(0.14, max(0.07, base + (-0.002) - (score - 650)/100 * 0.002))`. -/
def bank2Rate (civil_score : ℤ) (base_annual_interest_rate : ℚ) : ℚ :=
  min (14/100) (max (7/100)
    (base_annual_interest_rate + (-(2/1000)) - ((civil_score : ℚ) - 650)/100 * (2/1000)))

/-- The per-bank EMI recomputation block (lines 171-179 and 199-207 of the
source): guarded by `monthly_rate > 0 and num_payments > 0` and by a strict
positivity check on the denominator. -/
def bankEmiRecalc (loan_amount monthly_rate : ℚ) (num_payments : ℕ) : ℚ :=
  if 0 < monthly_rate ∧ 0 < num_payments then
    if 0 < (1 + monthly_rate) ^ num_payments - 1 then
      loan_amount * monthly_rate * ((1 + monthly_rate) ^ num_payments) /
        ((1 + monthly_rate) ^ num_payments - 1)
    else if 0 < num_payments then loan_amount / (num_payments : ℚ) else 0
  else if 0 < num_payments then loan_amount / (num_payments : ℚ) else 0

/-- Embedding of `get_mock_bank_loan_options`.  The two uniformly random
draws `np.random.uniform(0.90, 0.98)` and `np.random.uniform(0.95, 1.0)` are
passed in as the parameters `u1` and `u2`. -/
def get_mock_bank_loan_options (max_loan_calculated calculated_emi : ℚ)
    (civil_score : ℤ) (loan_tenure_years : ℕ)
    (base_annual_interest_rate u1 u2 : ℚ) : List LenderOffer :=
  let bank1_interest_rate := bank1Rate civil_score base_annual_interest_rate
  let bank1_loan_amount := roundThousand (max_loan_calculated * u1)
  -- dead binding of the source (its result is never used):
  let _bank1_emi :=
    (calculate_max_loan_and_emi 0 bank1_interest_rate loan_tenure_years).2
  let bank1_emi_recalc := bankEmiRecalc bank1_loan_amount
    (bank1_interest_rate / 12) (loan_tenure_years * 12)
  let options1 : List LenderOffer :=
    if 10000 < bank1_loan_amount then
      [{ bank_name := "Inclusive Housing Finance Ltd.",
         loan_product_name := "Sahay Home Loan",
         offered_loan_amount := bank1_loan_amount,
         interest_rate_pa := round2 (bank1_interest_rate * 100),
         tenure_years := loan_tenure_years,
         estimated_emi := round2 bank1_emi_recalc,
         notes := "Focuses on financial inclusion, flexible documentation (simulated)." }]
    else []
  let bank2_interest_rate := bank2Rate civil_score base_annual_interest_rate
  let bank2_loan_amount := roundThousand (max_loan_calculated * u2)
  let bank2_emi_recalc := bankEmiRecalc bank2_loan_amount
    (bank2_interest_rate / 12) (loan_tenure_years * 12)
  let options2 : List LenderOffer :=
    if 10000 < bank2_loan_amount then
      [{ bank_name := "Progressive National Bank",
         loan_product_name := "MyFirstHome Loan",
         offered_loan_amount := bank2_loan_amount,
         interest_rate_pa := round2 (bank2_interest_rate * 100),
         tenure_years := loan_tenure_years,
         estimated_emi := round2 bank2_emi_recalc,
         notes := "Competitive rates, standard processing (simulated)." }]
    else []
  let options := options1 ++ options2
  if options = [] ∧ 0 < max_loan_calculated then
    [{ bank_name := "Generic Lender Co.",
       loan_product_name := "Basic Home Loan",
       offered_loan_amount := roundThousand (max_loan_calculated * (9/10)),
       interest_rate_pa := round2 (base_annual_interest_rate * 100) + 1,
       tenure_years := loan_tenure_years,
       estimated_emi := calculated_emi * (105/100),
       notes := "A basic loan option (simulated)." }]
  else options

/-! ### Helper lemmas about the rounding primitives -/

lemma floor_le_rndHalfEven (x : ℚ) : ⌊x⌋ ≤ rndHalfEven x := by
  unfold rndHalfEven; split_ifs <;> omega

lemma rndHalfEven_le_floor_add_one (x : ℚ) : rndHalfEven x ≤ ⌊x⌋ + 1 := by
  unfold rndHalfEven; split_ifs <;> omega

lemma abs_rndHalfEven_sub_le (x : ℚ) : |(rndHalfEven x : ℚ) - x| ≤ 1/2 := by
  have h0 : (⌊x⌋ : ℚ) ≤ x := Int.floor_le x
  have h1 : x < ⌊x⌋ + 1 := Int.lt_floor_add_one x
  unfold rndHalfEven
  split_ifs with ha hb hc <;> rw [abs_le] <;> constructor <;> push_cast <;>
    first
      | linarith
      | (push_neg at ha; linarith)
      | (push_neg at ha hb; linarith)

lemma le_rndHalfEven (c : ℤ) (x : ℚ) (h : (c : ℚ) ≤ x) : c ≤ rndHalfEven x :=
  le_trans (Int.le_floor.mpr h) (floor_le_rndHalfEven x)

lemma rndHalfEven_le (c : ℤ) (x : ℚ) (h : x ≤ (c : ℚ)) : rndHalfEven x ≤ c := by
  have hf : ⌊x⌋ ≤ c := by
    have := Int.floor_le_floor h
    rwa [Int.floor_intCast] at this
  rcases lt_or_eq_of_le hf with hlt | heq
  · have := rndHalfEven_le_floor_add_one x; omega
  · have hx : x = (c : ℚ) := le_antisymm h (by rw [← heq]; exact Int.floor_le x)
    have hfrac : x - (⌊x⌋ : ℚ) < 1/2 := by rw [heq, hx]; push_cast; norm_num
    unfold rndHalfEven
    rw [if_pos hfrac, heq]

lemma rndHalfEven_eq_zero (x : ℚ) (h0 : 0 ≤ x) (h1 : x ≤ 1/2) : rndHalfEven x = 0 := by
  have hf : ⌊x⌋ = 0 := Int.floor_eq_zero_iff.mpr ⟨h0, by linarith⟩
  unfold rndHalfEven
  rw [hf]
  push_cast
  split_ifs with ha hb hc <;> first | rfl | linarith | omega

lemma abs_round2_sub_le (x : ℚ) : |round2 x - x| ≤ 1/200 := by
  have h := abs_rndHalfEven_sub_le (x * 100)
  unfold round2
  rw [abs_le] at h ⊢
  constructor <;> [linarith [h.1]; linarith [h.2]]

lemma le_round2 (c : ℤ) (x : ℚ) (h : (c : ℚ) ≤ x * 100) : (c : ℚ)/100 ≤ round2 x := by
  have := le_rndHalfEven c (x * 100) h
  have h2 : (c : ℚ) ≤ (rndHalfEven (x * 100) : ℚ) := by exact_mod_cast this
  unfold round2
  linarith

lemma round2_le (c : ℤ) (x : ℚ) (h : x * 100 ≤ (c : ℚ)) : round2 x ≤ (c : ℚ)/100 := by
  have := rndHalfEven_le c (x * 100) h
  have h2 : (rndHalfEven (x * 100) : ℚ) ≤ (c : ℚ) := by exact_mod_cast this
  unfold round2
  linarith

lemma le_roundThousand (c : ℤ) (x : ℚ) (h : (c : ℚ) * 1000 ≤ x) :
    (c : ℚ) * 1000 ≤ roundThousand x := by
  have hc : (c : ℚ) ≤ x / 1000 := by rw [le_div_iff (by norm_num : (0:ℚ) < 1000)]; linarith
  have := le_rndHalfEven c (x / 1000) hc
  have h2 : (c : ℚ) ≤ (rndHalfEven (x / 1000) : ℚ) := by exact_mod_cast this
  unfold roundThousand
  nlinarith

lemma roundThousand_eq_zero (x : ℚ) (h0 : 0 ≤ x) (h1 : x ≤ 500) : roundThousand x = 0 := by
  have : rndHalfEven (x / 1000) = 0 := by
    apply rndHalfEven_eq_zero
    · positivity
    · rw [div_le_iff (by norm_num : (0:ℚ) < 1000)]; linarith
  unfold roundThousand
  rw [this]
  norm_num

/-! ### Facts about the feature table and score pipeline -/

lemma salaried_features : simulate_alt_data_features "Salaried (Formal Employment)" =
    [("income_stability_proxy", 9/10),
     ("digital_transaction_volume", 8/10),
     ("social_reputation_proxy", 5/10),
     ("asset_ownership_proxy", 6/10),
     ("skill_versatility_proxy", 7/10)] := rfl

lemma calculate_loan_interest_rate_antitone {s1 s2 : ℤ} (h : s1 ≤ s2) :
    calculate_loan_interest_rate s2 ≤ calculate_loan_interest_rate s1 := by
  simp only [calculate_loan_interest_rate]
  have hc : (s1 : ℚ) ≤ (s2 : ℚ) := by exact_mod_cast h
  apply max_le_max le_rfl
  apply min_le_min ?_ le_rfl
  linarith

/-- C3: for every CreditScore input, the RateEstimator returns
clamp(0.09 − ((score − 600)/100) × 0.0025, 0.07, 0.15): the output is in
[0.07, 0.15], it is non-increasing in the score, and rate(900) ≤ rate(300). -/
theorem C3_rate_estimator_clamped_antitone (s s1 s2 : ℤ) (h : s1 ≤ s2) :
    calculate_loan_interest_rate s =
      max (7/100) (min (9/100 - (((s : ℚ) - 600)/100) * (25/10000)) (15/100)) ∧
    7/100 ≤ calculate_loan_interest_rate s ∧
    calculate_loan_interest_rate s ≤ 15/100 ∧
    calculate_loan_interest_rate s2 ≤ calculate_loan_interest_rate s1 ∧
    calculate_loan_interest_rate 900 ≤ calculate_loan_interest_rate 300 := by
  refine ⟨?_, ?_, ?_, calculate_loan_interest_rate_antitone h,
    calculate_loan_interest_rate_antitone (by norm_num)⟩
  · simp only [calculate_loan_interest_rate]
    congr 1
    congr 1
    ring
  · simp only [calculate_loan_interest_rate]
    exact le_max_left _ _
  · simp only [calculate_loan_interest_rate]
    exact max_le (by norm_num) (min_le_right _ _)

/-- Witness for C3 at score 600 and the pair 300 ≤ 900. -/
theorem C3_rate_estimator_clamped_antitone_w : (300 : ℤ) ≤ 900 ∧
    (calculate_loan_interest_rate 600 =
      max (7/100) (min (9/100 - ((((600 : ℤ) : ℚ) - 600)/100) * (25/10000)) (15/100)) ∧
    7/100 ≤ calculate_loan_interest_rate 600 ∧
    calculate_loan_interest_rate 600 ≤ 15/100 ∧
    calculate_loan_interest_rate 900 ≤ calculate_loan_interest_rate 300 ∧
    calculate_loan_interest_rate 900 ≤ calculate_loan_interest_rate 300) :=
  ⟨by norm_num, C3_rate_estimator_clamped_antitone 600 300 900 (by norm_num)⟩

/-- C4: the ScoreGenerator is total and always returns an integer in
[300, 900]; the empty feature set is treated as average 0.5 (giving score
600, no division by zero), and a nonempty set is averaged, rescaled from
[0,1] to [300,900], truncated, and clamped. -/
theorem C4_score_generator_total_bounded (fs : List (String × ℚ)) (hne : fs ≠ []) :
    (∀ gs : List (String × ℚ),
      300 ≤ generate_civil_score gs ∧ generate_civil_score gs ≤ 900) ∧
    generate_civil_score [] = 600 ∧
    generate_civil_score fs =
      max 300 (min (int_trunc
        (300 + ((fs.map Prod.snd).sum / (fs.length : ℚ)) * (900 - 300))) 900) := by
  refine ⟨?_, ?_, ?_⟩
  · intro gs
    simp only [generate_civil_score]
    exact ⟨le_max_left _ _, max_le (by norm_num) (min_le_right _ _)⟩
  · simp only [generate_civil_score, if_true]
    norm_num [int_trunc, min_def, max_def]
  · simp only [generate_civil_score, if_neg hne]

/-- Witness for C4 at a one-element feature set. -/
theorem C4_score_generator_total_bounded_w :
    ([(("income_stability_proxy" : String), (1:ℚ)/2)] ≠ []) ∧
    ((∀ gs : List (String × ℚ),
      300 ≤ generate_civil_score gs ∧ generate_civil_score gs ≤ 900) ∧
    generate_civil_score [] = 600 ∧
    generate_civil_score [(("income_stability_proxy" : String), (1:ℚ)/2)] =
      max 300 (min (int_trunc
        (300 + (([(("income_stability_proxy" : String), (1:ℚ)/2)].map Prod.snd).sum /
          (([(("income_stability_proxy" : String), (1:ℚ)/2)].length : ℚ))) * (900 - 300))) 900)) :=
  ⟨by simp, C4_score_generator_total_bounded [("income_stability_proxy", 1/2)] (by simp)⟩

/-- C5 counterexample: for the "Salaried (Formal Employment)" occupation the
pipeline's credit score is 720, not the 744 the claim states. -/
theorem C5_salaried_scenario_cex :
    generate_civil_score (simulate_alt_data_features "Salaried (Formal Employment)") ≠ 744 := by
  rw [salaried_features]
  simp only [generate_civil_score, List.map_cons, List.map_nil, List.sum_cons, List.sum_nil,
    List.length_cons, List.length_nil, reduceCtorEq, if_false]
  norm_num [int_trunc, min_def, max_def]

/-- C5 amended: for the "Salaried (Formal Employment)" occupation with the
feature table of the source, the average feature score is 0.70, the credit
score is 300 + 0.70 × 600 = 720, and the annual rate is exactly 8.70%. -/
theorem C5_salaried_scenario_amended :
    ((simulate_alt_data_features "Salaried (Formal Employment)").map Prod.snd).sum /
      ((simulate_alt_data_features "Salaried (Formal Employment)").length : ℚ) = 7/10 ∧
    generate_civil_score (simulate_alt_data_features "Salaried (Formal Employment)") = 720 ∧
    calculate_loan_interest_rate
      (generate_civil_score (simulate_alt_data_features "Salaried (Formal Employment)")) =
      87/1000 := by
  have h720 : generate_civil_score (simulate_alt_data_features "Salaried (Formal Employment)")
      = 720 := by
    rw [salaried_features]
    simp only [generate_civil_score, List.map_cons, List.map_nil, List.sum_cons, List.sum_nil,
      List.length_cons, List.length_nil, reduceCtorEq, if_false]
    norm_num [int_trunc, min_def, max_def]
  refine ⟨?_, h720, ?_⟩
  · rw [salaried_features]
    simp only [List.map_cons, List.map_nil, List.sum_cons, List.sum_nil, List.length_cons,
      List.length_nil]
    norm_num
  · rw [h720]
    norm_num [calculate_loan_interest_rate, min_def, max_def]

lemma bank1Rate_mem (score : ℤ) (base : ℚ) :
    75/1000 ≤ bank1Rate score base ∧ bank1Rate score base ≤ 16/100 :=
  ⟨le_min (by norm_num) (le_max_left _ _), min_le_left _ _⟩

lemma bank2Rate_mem (score : ℤ) (base : ℚ) :
    7/100 ≤ bank2Rate score base ∧ bank2Rate score base ≤ 14/100 :=
  ⟨le_min (by norm_num) (le_max_left _ _), min_le_left _ _⟩

/-- C9: the first lender's offer rate is always clamped to [0.075, 0.16] and
the second lender's to [0.07, 0.14]; the general RateEstimator bound is 0.15,
and a first-lender offer rate can exceed it (score 300, base rate 0.15). -/
theorem C9_lender_rate_clamp_ranges (score : ℤ) (base : ℚ) :
    (75/1000 ≤ bank1Rate score base ∧ bank1Rate score base ≤ 16/100) ∧
    (7/100 ≤ bank2Rate score base ∧ bank2Rate score base ≤ 14/100) ∧
    (∀ s : ℤ, calculate_loan_interest_rate s ≤ 15/100) ∧
    15/100 < bank1Rate 300 (15/100) := by
  refine ⟨bank1Rate_mem score base, bank2Rate_mem score base, ?_, ?_⟩
  · intro s
    simp only [calculate_loan_interest_rate]
    exact max_le (by norm_num) (min_le_right _ _)
  · norm_num [bank1Rate, min_def, max_def]

/-! ### Facts about the amortization engine -/

lemma annuityPV_pos (pe r : ℚ) (n : ℕ) (hpe : 0 < pe) (hr : 0 < r) (hn : n ≠ 0) :
    0 < annuityPV pe r n := by
  unfold annuityPV
  apply div_pos ?_ hr
  apply mul_pos hpe
  have hA : 1 < (1 + r) ^ n := one_lt_pow (by linarith) hn
  have : ((1 + r) ^ n)⁻¹ < 1 := inv_lt_one_of_one_lt₀ hA
  linarith

/-- On positive income, positive rate and positive tenure, the engine returns
the rounded present value and an installment that is exactly the rounded
income cap (the recomputation is the algebraic inverse of the PV formula). -/
lemma calculate_max_loan_and_emi_eq (income rate : ℚ) (t : ℕ)
    (h0 : 0 < income) (hr : 0 < rate) (ht : 1 ≤ t) :
    calculate_max_loan_and_emi income rate t =
      (round2 (annuityPV (income * (45/100)) (rate/12) (t*12)),
       round2 (income * (45/100))) := by
  have hrr : 0 < rate / 12 := by positivity
  have hrne : rate / 12 ≠ 0 := ne_of_gt hrr
  have hn : t * 12 ≠ 0 := by omega
  have hA : 1 < (1 + rate/12) ^ (t*12) := one_lt_pow (by linarith) hn
  have hA0 : ((1 + rate/12) ^ (t*12)) ≠ 0 := by positivity
  have hpe : 0 < income * (45/100) := by positivity
  have hML : 0 < annuityPV (income * (45/100)) (rate/12) (t*12) :=
    annuityPV_pos _ _ _ hpe hrr hn
  have hemi : recompute_actual_emi (annuityPV (income * (45/100)) (rate/12) (t*12))
      (rate/12) (t*12) income false = income * (45/100) := by
    have hden : (1 + rate/12) ^ (t*12) - 1 ≠ 0 := by
      have : (0:ℚ) < (1 + rate/12) ^ (t*12) - 1 := by linarith
      exact ne_of_gt this
    simp only [recompute_actual_emi, if_neg hrne, Bool.false_eq_true, if_false, if_neg hden]
    unfold annuityPV
    rw [div_mul_cancel₀ _ hrne]
    have h1 : income * (45/100) * (1 - ((1 + rate/12) ^ (t*12))⁻¹) * ((1 + rate/12) ^ (t*12)) =
        income * (45/100) * ((1 + rate/12) ^ (t*12) - 1) := by
      rw [mul_assoc, mul_assoc, sub_mul, one_mul, inv_mul_cancel₀ hA0]
      ring
    rw [h1, mul_div_assoc, div_self hden, mul_one]
  simp only [calculate_max_loan_and_emi, calculate_max_loan_and_emiOv, if_neg hrne,
    Bool.false_eq_true, if_false, if_neg (not_le.mpr hML)]
  rw [hemi]

/-- C1: for monthlyIncome 25000, annualRate 0.09, tenureYears 15 the returned
installment is exactly monthlyIncome × 0.45, and plugging the returned
installment, rate and tenure back into the present-value-of-annuity formula
reproduces the returned maxLoanAmount to within 1 currency unit. -/
theorem C1_amortization_scenario_roundtrip :
    (calculate_max_loan_and_emi 25000 (9/100) 15).2 = 25000 * (45/100) ∧
    |annuityPV ((calculate_max_loan_and_emi 25000 (9/100) 15).2) ((9/100)/12) (15*12) -
      (calculate_max_loan_and_emi 25000 (9/100) 15).1| ≤ 1 := by
  have he := calculate_max_loan_and_emi_eq 25000 (9/100) 15 (by norm_num) (by norm_num)
    (by norm_num)
  have hr2 : round2 ((25000 : ℚ) * (45/100)) = 25000 * (45/100) := by
    norm_num [round2, rndHalfEven]
  have h1 : (calculate_max_loan_and_emi 25000 (9/100) 15).1 =
      round2 (annuityPV (25000 * (45/100)) ((9/100)/12) (15*12)) := by rw [he]
  have h2 : (calculate_max_loan_and_emi 25000 (9/100) 15).2 = 25000 * (45/100) := by
    rw [he]; exact hr2
  refine ⟨h2, ?_⟩
  rw [h1, h2]
  have hb := abs_round2_sub_le (annuityPV (25000 * (45/100)) ((9/100)/12) (15*12))
  rw [abs_sub_comm] at hb
  linarith [hb]

/-- C2: the engine never raises on the documented domain — a present-value
overflow yields maxLoanAmount 0, an installment-recomputation overflow yields
the sentinel installment equal to the caller's monthlyIncome, and a zero
denominator (1+r)^n − 1 with nonzero rate falls back to the zero-rate formula
maxLoanAmount / numberOfPayments. -/
theorem C2_amortization_overflow_fallbacks (income rate : ℚ) (t : ℕ) (b : Bool)
    (P r : ℚ) (n : ℕ)
    (hrlo : 7/100 ≤ rate) (hrhi : rate ≤ 15/100) (ht : 1 ≤ t)
    (hinc : 0 < income) (hround : round2 income = income)
    (hden : (1 + r) ^ n - 1 = 0) (hrne : r ≠ 0) (hn : 0 < n) :
    (calculate_max_loan_and_emiOv income rate t true b).1 = 0 ∧
    (calculate_max_loan_and_emiOv income rate t false true).2 = income ∧
    recompute_actual_emi P r n income false = P / (n : ℚ) := by
  have hrr : 0 < rate / 12 := by linarith
  have hrne12 : rate / 12 ≠ 0 := ne_of_gt hrr
  refine ⟨?_, ?_, ?_⟩
  · simp only [calculate_max_loan_and_emiOv, if_neg hrne12]
    norm_num
  · have hn12 : t * 12 ≠ 0 := by omega
    have hpe : 0 < income * (45/100) := by positivity
    have hML : 0 < annuityPV (income * (45/100)) (rate/12) (t*12) :=
      annuityPV_pos _ _ _ hpe hrr hn12
    simp only [calculate_max_loan_and_emiOv, if_neg hrne12, Bool.false_eq_true, if_false,
      if_neg (not_le.mpr hML)]
    simp only [recompute_actual_emi, if_neg hrne12, if_pos rfl]
    exact hround
  · simp only [recompute_actual_emi, if_neg hrne, Bool.false_eq_true, if_false, if_pos hden,
      if_pos hn]

/-- Witness for C2: income 25000, rate 0.09, tenure 15, and the degenerate
EMI denominator at monthly rate −2 with 12 payments. -/
theorem C2_amortization_overflow_fallbacks_w :
    ((7:ℚ)/100 ≤ 9/100) ∧ ((9:ℚ)/100 ≤ 15/100) ∧ (1 ≤ 15) ∧ ((0:ℚ) < 25000) ∧
    (round2 25000 = 25000) ∧ ((1 + (-2:ℚ)) ^ 12 - 1 = 0) ∧ ((-2:ℚ) ≠ 0) ∧ (0 < 12) ∧
    ((calculate_max_loan_and_emiOv 25000 (9/100) 15 true false).1 = 0 ∧
     (calculate_max_loan_and_emiOv 25000 (9/100) 15 false true).2 = 25000 ∧
     recompute_actual_emi 100 (-2) 12 25000 false = 100 / ((12:ℕ) : ℚ)) :=
  ⟨by norm_num, by norm_num, by norm_num, by norm_num, by norm_num [round2, rndHalfEven],
   by norm_num, by norm_num, by norm_num,
   C2_amortization_overflow_fallbacks 25000 (9/100) 15 false 100 (-2) 12
     (by norm_num) (by norm_num) (by norm_num) (by norm_num)
     (by norm_num [round2, rndHalfEven]) (by norm_num) (by norm_num) (by norm_num)⟩

/-- C6: on the documented rate domain, nonpositive income or a present-value
overflow makes the engine return (0, 0) rather than propagating an error. -/
theorem C6_nonpositive_income_or_overflow_gives_zero (income rate : ℚ) (t : ℕ)
    (ovPV ovEMI : Bool)
    (hrlo : 7/100 ≤ rate) (hrhi : rate ≤ 15/100)
    (h : income ≤ 0 ∨ ovPV = true) :
    calculate_max_loan_and_emiOv income rate t ovPV ovEMI = (0, 0) := by
  have hrr : 0 < rate / 12 := by linarith
  have hrne : rate / 12 ≠ 0 := ne_of_gt hrr
  rcases h with hinc | hov
  · cases ovPV with
    | true =>
      simp only [calculate_max_loan_and_emiOv, if_neg hrne]
      norm_num
    | false =>
      have hpe : income * (45/100) ≤ 0 :=
        mul_nonpos_of_nonpos_of_nonneg hinc (by norm_num)
      have hA : (1:ℚ) ≤ (1 + rate/12) ^ (t*12) := one_le_pow₀ (by linarith)
      have hInv : ((1 + rate/12) ^ (t*12))⁻¹ ≤ 1 := inv_le_one_of_one_le₀ hA
      have hfac : 0 ≤ 1 - ((1 + rate/12) ^ (t*12))⁻¹ := by linarith
      have hML : annuityPV (income * (45/100)) (rate/12) (t*12) ≤ 0 := by
        unfold annuityPV
        apply div_nonpos_of_nonpos_of_nonneg ?_ (le_of_lt hrr)
        exact mul_nonpos_of_nonpos_of_nonneg hpe hfac
      simp only [calculate_max_loan_and_emiOv, if_neg hrne, Bool.false_eq_true, if_false,
        if_pos hML]
  · rw [hov]
    simp only [calculate_max_loan_and_emiOv, if_neg hrne]
    norm_num

/-- Witness for C6 at income −1, rate 0.09, tenure 15, with the
present-value overflow flag set. -/
theorem C6_nonpositive_income_or_overflow_gives_zero_w :
    ((7:ℚ)/100 ≤ 9/100) ∧ ((9:ℚ)/100 ≤ 15/100) ∧
    (((-1:ℚ) ≤ 0) ∨ (true = true)) ∧
    calculate_max_loan_and_emiOv (-1) (9/100) 15 true false = (0, 0) :=
  ⟨by norm_num, by norm_num, Or.inr rfl,
   C6_nonpositive_income_or_overflow_gives_zero (-1) (9/100) 15 true false
     (by norm_num) (by norm_num) (Or.inr rfl)⟩

/-! ### Facts about the offer generator -/

lemma round2_bank_rate_lo (lo : ℤ) (x : ℚ) (h : (lo : ℚ)/10000 ≤ x) :
    (lo : ℚ)/100 ≤ round2 (x * 100) := by
  have := le_round2 lo (x * 100) (by linarith)
  linarith

lemma round2_bank_rate_hi (hi : ℤ) (x : ℚ) (h : x ≤ (hi : ℚ)/10000) :
    round2 (x * 100) ≤ (hi : ℚ)/100 := by
  have := round2_le hi (x * 100) (by linarith)
  linarith

/-- C7: for maxLoanAmount 0 the OfferGenerator returns the empty list; for
maxLoanAmount 1,000,000, for every outcome of the random draws, it returns
between 1 and 3 offers, each with offeredAmount above 10,000 and a rate
(in percent) within that lender's clamp range. -/
theorem C7_offer_generator_bounds (emi : ℚ) (score : ℤ) (t : ℕ) (base u1 u2 : ℚ)
    (h1 : 9/10 ≤ u1) (h2 : u1 ≤ 98/100) (h3 : 95/100 ≤ u2) (h4 : u2 ≤ 1) :
    get_mock_bank_loan_options 0 emi score t base u1 u2 = [] ∧
    1 ≤ (get_mock_bank_loan_options 1000000 emi score t base u1 u2).length ∧
    (get_mock_bank_loan_options 1000000 emi score t base u1 u2).length ≤ 3 ∧
    ∀ o ∈ get_mock_bank_loan_options 1000000 emi score t base u1 u2,
      10000 < o.offered_loan_amount ∧
      (o.bank_name = "Inclusive Housing Finance Ltd." →
        75/10 ≤ o.interest_rate_pa ∧ o.interest_rate_pa ≤ 16) ∧
      (o.bank_name = "Progressive National Bank" →
        7 ≤ o.interest_rate_pa ∧ o.interest_rate_pa ≤ 14) := by
  have ha1 : (10000:ℚ) < roundThousand (1000000 * u1) := by
    have h900 : ((900:ℤ) : ℚ) * 1000 ≤ 1000000 * u1 := by push_cast; linarith
    have := le_roundThousand 900 (1000000 * u1) h900
    push_cast at this
    linarith
  have ha2 : (10000:ℚ) < roundThousand (1000000 * u2) := by
    have h950 : ((950:ℤ) : ℚ) * 1000 ≤ 1000000 * u2 := by push_cast; linarith
    have := le_roundThousand 950 (1000000 * u2) h950
    push_cast at this
    linarith
  have hb1lo : (75:ℚ)/10 ≤ round2 (bank1Rate score base * 100) := by
    have := round2_bank_rate_lo 750 (bank1Rate score base)
      (by push_cast; linarith [(bank1Rate_mem score base).1])
    push_cast at this
    linarith
  have hb1hi : round2 (bank1Rate score base * 100) ≤ 16 := by
    have := round2_bank_rate_hi 1600 (bank1Rate score base)
      (by push_cast; linarith [(bank1Rate_mem score base).2])
    push_cast at this
    linarith
  have hb2lo : (7:ℚ) ≤ round2 (bank2Rate score base * 100) := by
    have := round2_bank_rate_lo 700 (bank2Rate score base)
      (by push_cast; linarith [(bank2Rate_mem score base).1])
    push_cast at this
    linarith
  have hb2hi : round2 (bank2Rate score base * 100) ≤ 14 := by
    have := round2_bank_rate_hi 1400 (bank2Rate score base)
      (by push_cast; linarith [(bank2Rate_mem score base).2])
    push_cast at this
    linarith
  have hz1 : roundThousand ((0:ℚ) * u1) = 0 := by
    rw [zero_mul]; exact roundThousand_eq_zero 0 le_rfl (by norm_num)
  have hz2 : roundThousand ((0:ℚ) * u2) = 0 := by
    rw [zero_mul]; exact roundThousand_eq_zero 0 le_rfl (by norm_num)
  refine ⟨?_, ?_⟩
  · simp only [get_mock_bank_loan_options, hz1, hz2]
    norm_num
  · simp only [get_mock_bank_loan_options, if_pos ha1, if_pos ha2, List.singleton_append,
      reduceCtorEq, false_and, if_false]
    refine ⟨by norm_num, by norm_num, ?_⟩
    intro o ho
    simp only [List.mem_cons, List.not_mem_nil, or_false] at ho
    rcases ho with h | h <;> subst h
    · exact ⟨ha1, fun _ => ⟨hb1lo, hb1hi⟩, fun hcon => absurd hcon (by simp)⟩
    · exact ⟨ha2, fun hcon => absurd hcon (by simp), fun _ => ⟨hb2lo, hb2hi⟩⟩

/-- Witness for C7 at the extreme draws u1 = 0.9, u2 = 1. -/
theorem C7_offer_generator_bounds_w :
    ((9:ℚ)/10 ≤ 9/10) ∧ ((9:ℚ)/10 ≤ 98/100) ∧ ((95:ℚ)/100 ≤ 1) ∧ ((1:ℚ) ≤ 1) ∧
    (get_mock_bank_loan_options 0 0 600 15 (9/100) (9/10) 1 = [] ∧
     1 ≤ (get_mock_bank_loan_options 1000000 0 600 15 (9/100) (9/10) 1).length ∧
     (get_mock_bank_loan_options 1000000 0 600 15 (9/100) (9/10) 1).length ≤ 3 ∧
     ∀ o ∈ get_mock_bank_loan_options 1000000 0 600 15 (9/100) (9/10) 1,
       10000 < o.offered_loan_amount ∧
       (o.bank_name = "Inclusive Housing Finance Ltd." →
         75/10 ≤ o.interest_rate_pa ∧ o.interest_rate_pa ≤ 16) ∧
       (o.bank_name = "Progressive National Bank" →
         7 ≤ o.interest_rate_pa ∧ o.interest_rate_pa ≤ 14)) :=
  ⟨by norm_num, by norm_num, by norm_num, by norm_num,
   C7_offer_generator_bounds 0 600 15 (9/100) (9/10) 1
     (by norm_num) (by norm_num) (by norm_num) (by norm_num)⟩

/-- C8: when neither named lender's offer qualifies and maxLoanAmount is
positive, the OfferGenerator returns exactly one generic fallback offer with
amount 90% of maxLoanAmount rounded to the nearest thousand, rate the base
rate (in percent) plus 1 point, and installment the original installment
times 1.05, not recomputed by the annuity formula. -/
theorem C8_generic_fallback_offer (maxLoan emi : ℚ) (score : ℤ) (t : ℕ) (base u1 u2 : ℚ)
    (hb1 : roundThousand (maxLoan * u1) ≤ 10000)
    (hb2 : roundThousand (maxLoan * u2) ≤ 10000)
    (hml : 0 < maxLoan) :
    get_mock_bank_loan_options maxLoan emi score t base u1 u2 =
      [{ bank_name := "Generic Lender Co.",
         loan_product_name := "Basic Home Loan",
         offered_loan_amount := roundThousand (maxLoan * (9/10)),
         interest_rate_pa := round2 (base * 100) + 1,
         tenure_years := t,
         estimated_emi := emi * (105/100),
         notes := "A basic loan option (simulated)." }] := by
  simp only [get_mock_bank_loan_options, if_neg (not_lt.mpr hb1), if_neg (not_lt.mpr hb2),
    List.nil_append]
  simp [hml]

/-- Witness for C8 at maxLoanAmount 500 with draws 0.9 and 0.95. -/
theorem C8_generic_fallback_offer_w :
    (roundThousand ((500:ℚ) * (9/10)) ≤ 10000) ∧
    (roundThousand ((500:ℚ) * (95/100)) ≤ 10000) ∧
    ((0:ℚ) < 500) ∧
    get_mock_bank_loan_options 500 100 600 15 (9/100) (9/10) (95/100) =
      [{ bank_name := "Generic Lender Co.",
         loan_product_name := "Basic Home Loan",
         offered_loan_amount := roundThousand ((500:ℚ) * (9/10)),
         interest_rate_pa := round2 ((9:ℚ)/100 * 100) + 1,
         tenure_years := 15,
         estimated_emi := (100:ℚ) * (105/100),
         notes := "A basic loan option (simulated)." }] :=
  ⟨by rw [roundThousand_eq_zero (500 * (9/10)) (by norm_num) (by norm_num)]; norm_num,
   by rw [roundThousand_eq_zero (500 * (95/100)) (by norm_num) (by norm_num)]; norm_num,
   by norm_num,
   C8_generic_fallback_offer 500 100 600 15 (9/100) (9/10) (95/100)
     (by rw [roundThousand_eq_zero (500 * (9/10)) (by norm_num) (by norm_num)]; norm_num)
     (by rw [roundThousand_eq_zero (500 * (95/100)) (by norm_num) (by norm_num)]; norm_num)
     (by norm_num)⟩

/-- C10: the 10,000 minimum is not applied to the generic fallback: with
maxLoanAmount 500, for every outcome of the random draws, the returned list
contains an offer whose amount is at most 10,000 — indeed exactly 0 after
rounding to the nearest thousand. -/
theorem C10_fallback_skips_min_threshold (emi : ℚ) (score : ℤ) (t : ℕ) (base u1 u2 : ℚ)
    (h1 : 9/10 ≤ u1) (h2 : u1 ≤ 98/100) (h3 : 95/100 ≤ u2) (h4 : u2 ≤ 1) :
    (0:ℚ) < 500 ∧
    ∃ o ∈ get_mock_bank_loan_options 500 emi score t base u1 u2,
      o.offered_loan_amount ≤ 10000 ∧ o.offered_loan_amount = 0 := by
  have hz1 : roundThousand ((500:ℚ) * u1) = 0 :=
    roundThousand_eq_zero _ (by linarith) (by linarith)
  have hz2 : roundThousand ((500:ℚ) * u2) = 0 :=
    roundThousand_eq_zero _ (by linarith) (by linarith)
  have hz9 : roundThousand ((450:ℚ)) = 0 :=
    roundThousand_eq_zero _ (by norm_num) (by norm_num)
  refine ⟨by norm_num, ?_⟩
  simp only [get_mock_bank_loan_options, hz1, hz2]
  norm_num
  rw [hz9]
  norm_num

/-- Witness for C10 at the extreme draws u1 = 0.98, u2 = 0.95. -/
theorem C10_fallback_skips_min_threshold_w :
    ((9:ℚ)/10 ≤ 98/100) ∧ ((98:ℚ)/100 ≤ 98/100) ∧ ((95:ℚ)/100 ≤ 95/100) ∧
    ((95:ℚ)/100 ≤ 1) ∧
    ((0:ℚ) < 500 ∧
     ∃ o ∈ get_mock_bank_loan_options 500 0 600 15 (9/100) (98/100) (95/100),
       o.offered_loan_amount ≤ 10000 ∧ o.offered_loan_amount = 0) :=
  ⟨by norm_num, by norm_num, by norm_num, by norm_num,
   C10_fallback_skips_min_threshold 0 600 15 (9/100) (98/100) (95/100)
     (by norm_num) (by norm_num) (by norm_num) (by norm_num)⟩

